import Mathlib

/-!
Shallow embedding of the Multi-Meter PAC3200 Streamlit dashboard
(`app.py`): the `PAC3200Meter` acquisition layer (register map, float
decode, simulated fallback) and the `MultiMeterDashboard` storage layer
(schema initialization, tolerant reading writes, configuration
add/remove/load, latest-per-meter and aggregation queries).

Python floats are modelled as rationals tagged with NaN/±Inf markers;
SQL NULL and SQLite cell values are modelled by `PyVal`; Python dicts
are association lists with unique keys maintained by insertion order
(first occurrence keeps its position, a later binding overwrites the
value in place).  Exceptions are absorbed where the source absorbs
them; SQL statement failures (which the source catches and reports) are
not injected: the functions model the successful execution path.
-/

namespace PAC3200Dash

/-- Model of a Python float: a finite rational or one of the
non-finite IEEE-754 values. -/
inductive PyFloat where
  | finite (q : ℚ)
  | nan
  | inf
  | ninf
deriving DecidableEq, Repr

/-- True exactly on finite floats. -/
def PyFloat.isFinite : PyFloat → Bool
  | .finite _ => true
  | _ => false

/-- A value as it appears in a Python reading dict or a SQLite cell:
`vNone` is Python `None` / SQL NULL. -/
inductive PyVal where
  | vNone
  | vStr (s : String)
  | vFloat (f : PyFloat)
deriving DecidableEq, Repr

/-- `isinstance(v, float) and np.isnan(v)` from the save filter. -/
def isNaNVal : PyVal → Bool
  | .vFloat .nan => true
  | _ => false

/-- Python dict assignment `d[k] = v`: overwrite in place if the key is
present, append otherwise. -/
def dictInsert (k : String) (v : α) : List (String × α) → List (String × α)
  | [] => [(k, v)]
  | p :: ps => if p.1 = k then (k, v) :: ps else p :: dictInsert k v ps

/-- A Python dict literal / comprehension built from a sequence of
key-value bindings: later bindings overwrite earlier ones. -/
def dictOfList (l : List (String × α)) : List (String × α) :=
  l.foldl (fun d p => dictInsert p.1 p.2 d) []

/-! ## PAC3200Meter: register map (`self.registers`, app.py lines 108-154)

The dict literal is transcribed binding by binding in source order.
Note the source text at lines 122-123: `'Maximum_Current_2'` is bound
twice (register 89, then register 159) and `'Minimum_Current_2'` is
never bound. -/

def registersLiteral : List (String × Nat) :=
  [("V1_N_Voltage", 1), ("V2_N_Voltage", 3), ("V3_N_Voltage", 5),
   ("V1_V2_Voltage", 7), ("V2_V3_Voltage", 9), ("V3_V1_Voltage", 11),
   ("Maximum_Voltage_V1_n", 75), ("Maximum_Voltage_V2_n", 77), ("Maximum_Voltage_V3_n", 79),
   ("Maximum_Voltage_V1_2", 81), ("Maximum_Voltage_V2_3", 83), ("Maximum_Voltage_V3_1", 85),
   ("Minimum_Voltage_V1_n", 145), ("Minimum_Voltage_V2_n", 147), ("Minimum_Voltage_V3_n", 149),
   ("Minimum_Voltage_V1_2", 151), ("Minimum_Voltage_V2_3", 153), ("Minimum_Voltage_V3_1", 155),
   ("THD_R_Voltage_1", 43), ("THD_R_Voltage_2", 45), ("THD_R_Voltage_3", 47),
   ("Average_Voltage_Vph_n", 57), ("Average_Voltage_Vph_ph", 59),
   ("Amplitude_Unbalance_Voltage", 71),
   ("L1_Current", 13), ("L2_Current", 15), ("L3_Current", 17),
   ("Maximum_Current_1", 87), ("Maximum_Current_2", 89), ("Maximum_Current_3", 91),
   ("Minimum_Current_1", 157), ("Maximum_Current_2", 159), ("Minimum_Current_3", 161),
   ("Average_Current", 61),
   ("THD_R_Current_1", 49), ("THD_R_Current_2", 51), ("THD_R_Current_3", 53),
   ("Amplitude_Unbalance_Current", 73),
   ("L1_Active_Power", 25), ("L2_Active_Power", 27), ("L3_Active_Power", 29),
   ("Maximum_Active_Power_1", 99), ("Maximum_Active_Power_2", 101), ("Maximum_Active_Power_3", 103),
   ("Minimum_Active_Power_1", 169), ("Minimum_Active_Power_2", 171), ("Minimum_Active_Power_3", 173),
   ("Total_Active_Power", 65),
   ("L1_Reactive_Power", 31), ("L2_Reactive_Power", 33), ("L3_Reactive_Power", 35),
   ("Maximum_Reactive_Power_1", 105), ("Maximum_Reactive_Power_2", 107), ("Maximum_Reactive_Power_3", 109),
   ("Minimum_Reactive_Power_1", 175), ("Minimum_Reactive_Power_2", 177), ("Minimum_Reactive_Power_3", 179),
   ("Total_Reactive_Power", 67),
   ("L1_Apparent_Power", 19), ("L2_Apparent_Power", 21), ("L3_Apparent_Power", 23),
   ("Maximum_Apparent_Power_1", 93), ("Maximum_Apparent_Power_2", 95), ("Maximum_Apparent_Power_3", 97),
   ("Minimum_Apparent_Power_1", 163), ("Minimum_Apparent_Power_2", 165), ("Minimum_Apparent_Power_3", 167),
   ("Total_Apparent_Power", 63),
   ("L1_Power_Factor", 37), ("L2_Power_Factor", 39), ("L3_Power_Factor", 41),
   ("Maximum_Power_Factor_1", 111), ("Maximum_Power_Factor_2", 113), ("Maximum_Power_Factor_3", 115),
   ("Minimum_Power_Factor_1", 181), ("Minimum_Power_Factor_2", 183), ("Minimum_Power_Factor_3", 185),
   ("Total_Power_Factor", 69),
   ("Frequency", 55),
   ("Total_Active_Energy", 801),
   ("Total_Reactive_Energy", 805)]

/-- The effective register dict after Python evaluates the literal. -/
def registers : List (String × Nat) := dictOfList registersLiteral

/-! ## PAC3200Meter._generate_simulated_value (app.py lines 222-261)

`meter_offset` (`hash(meter_id) % 10 / 10.0`), the sinusoid-plus-noise
`variation`, and `base_time` (`time.time()`) are taken as parameters:
they stand for the hash, transcendental and random subexpressions,
whose exact values the branching logic does not depend on. -/

def voltage_registers : List Nat := [1, 3, 5, 7, 9, 11, 57, 59]
def current_registers : List Nat := [13, 15, 17, 61]
def power_registers : List Nat := [25, 27, 29, 31, 33, 35, 19, 21, 23, 65, 67, 63]
def power_factor_registers : List Nat := [37, 39, 41, 69]
def frequency_registers : List Nat := [55]
def thd_registers : List Nat := [43, 45, 47, 49, 51, 53]
def energy_registers : List Nat := [801, 805]

def generate_simulated_value (meter_offset variation base_time : ℚ)
    (register_address : Nat) : PyFloat :=
  if register_address ∈ voltage_registers then
    if register_address ∈ [57, 59] then
      .finite (230 + variation * 10 + meter_offset * 5)
    else
      .finite (230 + variation * 15 + meter_offset * 5)
  else if register_address ∈ current_registers then
    .finite (10 + variation * 5 + meter_offset * 3)
  else if register_address ∈ power_registers then
    if register_address = 65 then
      .finite (2300 + variation * 300 + meter_offset * 500)
    else if register_address ∈ [67, 63] then
      .finite (2400 + variation * 320 + meter_offset * 500)
    else
      .finite (760 + variation * 100 + meter_offset * 150)
  else if register_address ∈ power_factor_registers then
    .finite (85/100 + variation * (1/10))
  else if register_address ∈ frequency_registers then
    .finite (50 + variation * (2/10))
  else if register_address ∈ thd_registers then
    .finite (25/10 + |variation| * 2)
  else if register_address ∈ energy_registers then
    .finite (1000000 + base_time * 100 + meter_offset * 100000)
  else
    .finite (|variation| * 100)

/-! ## PAC3200Meter.read_float32_register (app.py lines 191-220)

In live-protocol mode the client/socket state, the success of
`read_holding_registers`, and the decoded binary32 value are inputs;
any exception in the body is absorbed to `None` by the source, so the
model has no failure path beyond the explicit `None` returns. -/

def read_float32_register (modbus_available : Bool)
    (meter_offset variation base_time : ℚ)
    (socket_open read_ok : Bool) (decoded : PyFloat)
    (register_address : Nat) : Option PyFloat :=
  if !modbus_available then
    some (generate_simulated_value meter_offset variation base_time register_address)
  else if !socket_open then
    none
  else if !read_ok then
    none
  else
    match decoded with
    | .nan => none
    | .inf => none
    | .ninf => none
    | .finite q => some (.finite q)

/-! ## PAC3200Meter.read_all_parameters (app.py lines 263-276)

`read` abstracts `self.read_float32_register`; a raised exception is
caught per-parameter and recorded as `None`, which `read = none`
already covers. -/

def read_all_parameters (read : Nat → Option PyFloat) : List (String × PyVal) :=
  registers.map (fun p =>
    (p.1, match read p.2 with
          | some f => PyVal.vFloat f
          | none => PyVal.vNone))

/-! ## Persisted layout (app.py lines 312-371)

`readingColumns` lists the columns of `pac3200_readings` in CREATE
TABLE order; `metersConfigColumns` those of `meters_config`. -/

def readingColumns : List String :=
  ["id", "meter_id", "timestamp",
   "V1_N_Voltage", "V2_N_Voltage", "V3_N_Voltage",
   "V1_V2_Voltage", "V2_V3_Voltage", "V3_V1_Voltage",
   "Maximum_Voltage_V1_n", "Maximum_Voltage_V2_n", "Maximum_Voltage_V3_n",
   "Maximum_Voltage_V1_2", "Maximum_Voltage_V2_3", "Maximum_Voltage_V3_1",
   "Minimum_Voltage_V1_n", "Minimum_Voltage_V2_n", "Minimum_Voltage_V3_n",
   "Minimum_Voltage_V1_2", "Minimum_Voltage_V2_3", "Minimum_Voltage_V3_1",
   "L1_Current", "L2_Current", "L3_Current",
   "Maximum_Current_1", "Maximum_Current_2", "Maximum_Current_3",
   "Minimum_Current_1", "Minimum_Current_2", "Minimum_Current_3",
   "L1_Active_Power", "L2_Active_Power", "L3_Active_Power",
   "Maximum_Active_Power_1", "Maximum_Active_Power_2", "Maximum_Active_Power_3",
   "Minimum_Active_Power_1", "Minimum_Active_Power_2", "Minimum_Active_Power_3",
   "L1_Reactive_Power", "L2_Reactive_Power", "L3_Reactive_Power",
   "Maximum_Reactive_Power_1", "Maximum_Reactive_Power_2", "Maximum_Reactive_Power_3",
   "Minimum_Reactive_Power_1", "Minimum_Reactive_Power_2", "Minimum_Reactive_Power_3",
   "L1_Apparent_Power", "L2_Apparent_Power", "L3_Apparent_Power",
   "Maximum_Apparent_Power_1", "Maximum_Apparent_Power_2", "Maximum_Apparent_Power_3",
   "Minimum_Apparent_Power_1", "Minimum_Apparent_Power_2", "Minimum_Apparent_Power_3",
   "L1_Power_Factor", "L2_Power_Factor", "L3_Power_Factor",
   "Maximum_Power_Factor_1", "Maximum_Power_Factor_2", "Maximum_Power_Factor_3",
   "Minimum_Power_Factor_1", "Minimum_Power_Factor_2", "Minimum_Power_Factor_3",
   "Total_Active_Power", "Total_Reactive_Power", "Total_Apparent_Power",
   "Total_Power_Factor", "Frequency", "Average_Current",
   "Average_Voltage_Vph_n", "Average_Voltage_Vph_ph",
   "THD_R_Voltage_1", "THD_R_Voltage_2", "THD_R_Voltage_3",
   "THD_R_Current_1", "THD_R_Current_2", "THD_R_Current_3",
   "Amplitude_Unbalance_Voltage", "Amplitude_Unbalance_Current",
   "Total_Active_Energy", "Total_Reactive_Energy"]

def metersConfigColumns : List String :=
  ["meter_id", "name", "host", "port", "unit_id", "location", "description",
   "created_at", "updated_at"]

/-! ## Schema-level database model, for `init_database` (app.py lines 286-379)

A generic SQLite table is a column list plus rows of cells; the state
tracks the three table names the function touches plus the index.
`ALTER TABLE ... RENAME` moves the whole table; `DROP TABLE` removes
the table and (being attached to it) the composite index. -/

structure GTable where
  cols : List String
  rows : List (List PyVal)
deriving DecidableEq, Repr

structure SchemaDB where
  pac3200_readings : Option GTable
  pac3200_readings_backup : Option GTable
  meters_config : Option GTable
  idx_readings_meter_timestamp : Bool
deriving DecidableEq, Repr

def init_database (db : SchemaDB) : SchemaDB :=
  -- PRAGMA table_info(pac3200_readings): empty when the table is absent
  let columns := (db.pac3200_readings.map GTable.cols).getD []
  -- legacy-schema migration path
  let db1 :=
    if "device_id" ∈ columns then
      match db.pac3200_readings with
      | some t =>
        if 0 < t.rows.length then
          { db with pac3200_readings := none, pac3200_readings_backup := some t }
        else
          { db with pac3200_readings := none }
      | none => db
    else db
  -- CREATE TABLE IF NOT EXISTS meters_config
  let db2 := { db1 with meters_config := some (db1.meters_config.getD ⟨metersConfigColumns, []⟩) }
  -- DROP TABLE IF EXISTS pac3200_readings (its index goes with it)
  let db3 := { db2 with pac3200_readings := none, idx_readings_meter_timestamp := false }
  -- CREATE TABLE pac3200_readings (...); CREATE INDEX IF NOT EXISTS ...
  { db3 with pac3200_readings := some ⟨readingColumns, []⟩,
             idx_readings_meter_timestamp := true }

/-! ## Row-level database model, for the reading/config operations

A reading row records the autoincrement id, the meter identifier and
timestamp columns, and the explicitly inserted measurement cells
(column name to value); a column absent from `cells` is NULL.  A config
row carries the seven columns `add_meter` writes. -/

structure ReadingRow where
  rid : Nat
  meter_id : String
  timestamp : Int
  cells : List (String × PyVal)
deriving DecidableEq, Repr

structure ConfigRow where
  meter_id : String
  name : String
  host : String
  port : Int
  unit_id : Int
  location : String
  description : String
deriving DecidableEq, Repr

structure AppDB where
  readings : List ReadingRow
  configs : List ConfigRow
  nextId : Nat
deriving DecidableEq, Repr

/-- Runtime meter object as constructed by `PAC3200Meter.__init__`
(app.py lines 93-105); protocol client and last-reading snapshot are
omitted (runtime-only, not consulted by the claims). -/
structure Meter where
  meter_id : String
  name : String
  host : String
  port : Int
  unit_id : Int
  meterTimeout : Int
  location : String
  description : String
  connected : Bool
deriving DecidableEq, Repr

/-- In-memory dashboard: the database plus the `self.meters` dict. -/
structure Dashboard where
  db : AppDB
  meters : List (String × Meter)
deriving DecidableEq, Repr

/-- Python `s or ""`: the empty string is falsy. -/
def pyStrOr (s d : String) : String := if s = "" then d else s

/-! ## MultiMeterDashboard.save_reading (app.py lines 451-492) -/

/-- The dict that reaches the INSERT: drop `None` and NaN values, bind
`meter_id`, then keep only keys among the live columns minus
`id`/`timestamp`. -/
def survivors (existing_columns : List String) (meter_id : String)
    (data : List (String × PyVal)) : List (String × PyVal) :=
  let valid_data := (dictOfList data).filter
    (fun p => !(p.2 == PyVal.vNone) && !(isNaNVal p.2))
  let valid_data := dictInsert "meter_id" (PyVal.vStr meter_id) valid_data
  let db_columns := existing_columns.filter
    (fun c => !(c == "id") && !(c == "timestamp"))
  valid_data.filter (fun p => db_columns.contains p.1)

/-- `save_reading`: `existing_columns` is what PRAGMA reports for
`pac3200_readings` (empty when the table is absent), `now` the value
CURRENT_TIMESTAMP takes for the inserted row.  Returns `lastrowid` (or
`none` for the "nothing saved" path) and the updated database. -/
def save_reading (existing_columns : List String) (now : Int) (db : AppDB)
    (meter_id : String) (data : List (String × PyVal)) : Option Nat × AppDB :=
  let filtered_data := survivors existing_columns meter_id data
  if filtered_data.isEmpty then (none, db)
  else
    let row : ReadingRow :=
      ⟨db.nextId, meter_id, now, filtered_data.filter (fun p => !(p.1 == "meter_id"))⟩
    (some db.nextId, { db with readings := db.readings ++ [row], nextId := db.nextId + 1 })

/-! ## MultiMeterDashboard.get_all_meters_latest (app.py lines 514-536)

The subquery `latest` pairs each meter identifier occurring in
`pac3200_readings` with its MAX(timestamp); the INNER JOINs keep every
reading row achieving that maximum that also has a configuration row.
`ORDER BY m.name` only permutes the result and is not modelled. -/

def maxTS (db : AppDB) (m : String) : Option Int :=
  ((db.readings.filter (fun r => r.meter_id == m)).map ReadingRow.timestamp).max?

def get_all_meters_latest (db : AppDB) : List (ReadingRow × String × String) :=
  (db.readings.filter (fun r => maxTS db r.meter_id == some r.timestamp)).flatMap
    (fun r => (db.configs.filter (fun c => c.meter_id == r.meter_id)).map
      (fun c => (r, c.name, c.location)))

/-! ## MultiMeterDashboard.get_aggregated_data (app.py lines 538-563) -/

/-- Read a cell as a SQL numeric value; NULL (absent or `vNone`) is
`none`.  Stored non-finite floats fall outside the rational model and
are treated as NULL by the aggregates (see `save_reading`: the live
pipeline never stores them, and `read_float32_register` never produces
them). -/
def ReadingRow.getNum (r : ReadingRow) (c : String) : Option ℚ :=
  match r.cells.lookup c with
  | some (PyVal.vFloat (PyFloat.finite q)) => some q
  | _ => none

/-- SQL `SUM`: NULL on an all-NULL group, else the sum of non-NULLs. -/
def sqlSum (l : List (Option ℚ)) : Option ℚ :=
  match l.filterMap id with
  | [] => none
  | xs => some xs.sum

/-- SQL `AVG`: NULL on an all-NULL group, else the mean of non-NULLs. -/
def sqlAvg (l : List (Option ℚ)) : Option ℚ :=
  match l.filterMap id with
  | [] => none
  | xs => some (xs.sum / xs.length)

structure AggRow where
  timestamp : Int
  Total_System_Power : Option ℚ
  Avg_Frequency : Option ℚ
  Avg_Power_Factor : Option ℚ
  Active_Meters : Nat
deriving DecidableEq, Repr

/-- `get_aggregated_data`: keep rows with timestamp BETWEEN `now-hours`
AND `now` (inclusive), group by the exact timestamp value, and compute
the four aggregates per group.  `ORDER BY timestamp DESC` only permutes
the result and is not modelled: groups are emitted in `List.dedup`
order of their timestamps. -/
def get_aggregated_data (db : AppDB) (now hours : Int) : List AggRow :=
  let inRange := db.readings.filter
    (fun r => decide (now - hours ≤ r.timestamp ∧ r.timestamp ≤ now))
  ((inRange.map ReadingRow.timestamp).dedup).map (fun t =>
    let g := inRange.filter (fun r => r.timestamp == t)
    { timestamp := t,
      Total_System_Power := sqlSum (g.map (fun r => r.getNum "Total_Active_Power")),
      Avg_Frequency := sqlAvg (g.map (fun r => r.getNum "Frequency")),
      Avg_Power_Factor := sqlAvg (g.map (fun r => r.getNum "Total_Power_Factor")),
      Active_Meters := ((g.map ReadingRow.meter_id).dedup).length })

/-! ## MultiMeterDashboard.add_meter / remove_meter / load_meters_config
(app.py lines 381-449) -/

/-- `add_meter`: construct the runtime meter (timeout defaults to 3),
INSERT OR REPLACE the configuration row (SQLite replaces by deleting
the conflicting row and appending the new one), and store the meter in
the dict. -/
def add_meter (d : Dashboard) (meter_id name host : String) (port unit_id : Int)
    (location description : String) : Dashboard :=
  let meter : Meter := ⟨meter_id, name, host, port, unit_id, 3, location, description, false⟩
  { db := { d.db with
      configs := d.db.configs.filter (fun c => !(c.meter_id == meter_id)) ++
        [⟨meter_id, name, host, port, unit_id, location, description⟩] },
    meters := dictInsert meter_id meter d.meters }

/-- `remove_meter`: drop the meter from the dict (after disconnecting
it, which mutates only the discarded object) and DELETE its
configuration rows; the reading table is untouched. -/
def remove_meter (d : Dashboard) (meter_id : String) : Dashboard :=
  { db := { d.db with
      configs := d.db.configs.filter (fun c => !(c.meter_id == meter_id)) },
    meters := d.meters.filter (fun p => !(p.1 == meter_id)) }

/-- `load_meters_config`: rebuild the meters dict from the
configuration table (`SELECT *`, first seven columns); `location or ""`
and `description or ""` are the Python falsy-default idiom. -/
def load_meters_config (db : AppDB) : List (String × Meter) :=
  db.configs.foldl (fun acc c =>
    dictInsert c.meter_id
      ⟨c.meter_id, c.name, c.host, c.port, c.unit_id, 3,
       pyStrOr c.location "", pyStrOr c.description "", false⟩ acc) []

/-! ## Helper lemmas on the dict model -/

theorem lookup_dictInsert_self (k : String) (v : α) (d : List (String × α)) :
    (dictInsert k v d).lookup k = some v := by
  induction d with
  | nil => simp [dictInsert, List.lookup]
  | cons p ps ih =>
    by_cases h : p.1 = k
    · simp [dictInsert, h, List.lookup]
    · simp only [dictInsert, h, if_false, List.lookup]
      have : (k == p.1) = false := by
        simp [beq_iff_eq]
        exact fun hk => h hk.symm
      simp [this, ih]

theorem mem_dictInsert (k : String) (v : α) (d : List (String × α)) (p : String × α) :
    p ∈ dictInsert k v d → p = (k, v) ∨ p ∈ d := by
  induction d with
  | nil => simp [dictInsert]
  | cons q qs ih =>
    by_cases h : q.1 = k
    · simp [dictInsert, h]
      tauto
    · simp only [dictInsert, h, if_false, List.mem_cons]
      rintro (rfl | hp)
      · tauto
      · rcases ih hp with h1 | h2 <;> tauto

theorem mem_dictOfList_aux (l : List (String × α)) :
    ∀ (acc : List (String × α)) (p : String × α),
      p ∈ l.foldl (fun d q => dictInsert q.1 q.2 d) acc →
      p ∈ acc ∨ p.1 ∈ l.map Prod.fst := by
  induction l with
  | nil => simp
  | cons q qs ih =>
    intro acc p hp
    simp only [List.foldl_cons] at hp
    rcases ih (dictInsert q.1 q.2 acc) p hp with h1 | h2
    · rcases mem_dictInsert _ _ _ _ h1 with rfl | h3
      · right; simp
      · tauto
    · right; simp [h2]

theorem keys_dictOfList_subset (l : List (String × α)) (p : String × α) :
    p ∈ dictOfList l → p.1 ∈ l.map Prod.fst := by
  intro hp
  rcases mem_dictOfList_aux l [] p hp with h | h
  · simp at h
  · exact h

theorem lookup_eq_none_of_not_mem_keys (l : List (String × α)) (k : String) :
    k ∉ l.map Prod.fst → l.lookup k = none := by
  induction l with
  | nil => simp [List.lookup]
  | cons q qs ih =>
    intro hk
    simp only [List.map_cons, List.mem_cons, not_or] at hk
    have : (k == q.1) = false := by simp [beq_iff_eq]; exact hk.1
    simp [List.lookup, this, ih hk.2]

theorem lookup_map_snd (l : List (String × β)) (f : β → γ)
    (hnd : (l.map Prod.fst).Nodup) (name : String) (b : β) :
    (name, b) ∈ l → (l.map (fun p => (p.1, f p.2))).lookup name = some (f b) := by
  induction l with
  | nil => simp
  | cons q qs ih =>
    intro hm
    simp only [List.map_cons, List.nodup_cons] at hnd
    rcases List.mem_cons.mp hm with h | h
    · simp [← h, List.lookup]
    · have hne : (name == q.1) = false := by
        simp [beq_iff_eq]
        intro he
        exact hnd.1 (he ▸ (List.mem_map.mpr ⟨(name, b), h, rfl⟩))
      simp only [List.map_cons, List.lookup, hne]
      exact ih hnd.2 h

/-- Every surviving entry of `save_reading` is non-NULL, non-NaN, and
its key is a live column. -/
theorem mem_survivors (cols : List String) (m : String)
    (data : List (String × PyVal)) (p : String × PyVal) :
    p ∈ survivors cols m data →
      p.2 ≠ PyVal.vNone ∧ isNaNVal p.2 = false ∧ p.1 ∈ cols := by
  intro hp
  unfold survivors at hp
  obtain ⟨hp1, hp2⟩ := List.mem_filter.mp hp
  have hcol : p.1 ∈ cols := by
    have := List.mem_filter.mp (List.mem_of_elem_eq_true hp2)
    exact this.1
  rcases mem_dictInsert _ _ _ _ hp1 with rfl | hp3
  · exact ⟨by simp, by simp [isNaNVal], hcol⟩
  · obtain ⟨_, hval⟩ := List.mem_filter.mp hp3
    simp only [Bool.and_eq_true, Bool.not_eq_true', beq_eq_false_iff_ne, ne_eq,
      Bool.not_eq_true] at hval
    exact ⟨hval.1, hval.2, hcol⟩

/-- Every surviving key is the injected meter identifier or a key of
the parameter map. -/
theorem keys_survivors (cols : List String) (m : String)
    (data : List (String × PyVal)) (p : String × PyVal) :
    p ∈ survivors cols m data → p.1 = "meter_id" ∨ p.1 ∈ data.map Prod.fst := by
  intro hp
  unfold survivors at hp
  obtain ⟨hp1, _⟩ := List.mem_filter.mp hp
  rcases mem_dictInsert _ _ _ _ hp1 with rfl | hp3
  · left; rfl
  · right
    exact keys_dictOfList_subset _ _ (List.mem_of_mem_filter hp3)

/-- The simulated generator only builds `finite` values. -/
theorem generate_simulated_value_isFinite (mo va bt : ℚ) (addr : Nat) :
    (generate_simulated_value mo va bt addr).isFinite = true := by
  unfold generate_simulated_value
  split_ifs <;> rfl

/-- Python `s or ""` is the identity on strings. -/
theorem pyStrOr_empty (s : String) : pyStrOr s "" = s := by
  unfold pyStrOr
  split <;> simp_all

/-! ## Claim theorems -/

/-- C1 (counterexample): with the standard reading-table columns,
`save_reading "m1" {}` does NOT return the "nothing saved" result: the
injected `meter_id` entry always survives the column intersection, so
a row holding only the meter identifier is inserted and its row id is
returned.  This refutes the claim's scenario `save("m1", {}) returns
"nothing saved"`. -/
theorem save_reading_empty_map_counterexample :
    (save_reading readingColumns 0 ⟨[], [], 0⟩ "m1" []).1 = some 0 ∧
    (save_reading readingColumns 0 ⟨[], [], 0⟩ "m1" []).2.readings =
      [⟨0, "m1", 0, []⟩] := by
  constructor <;> rfl

/-- C1 (amended): `save_reading` inserts no row and returns the
"nothing saved" result exactly when the survivor map — the non-null,
non-NaN entries of the parameter map PLUS the injected meter
identifier, intersected with the live columns — is empty.  Because
`meter_id` is a live column of the standard schema, the survivor map is
then never empty: `save(m, {})` inserts a row holding only the meter
identifier and returns its row id.  With no live columns (reading table
absent) nothing is saved and the database is unchanged. -/
theorem save_reading_nothing_saved_iff (cols : List String) (now : Int)
    (db : AppDB) (m : String) (data : List (String × PyVal)) :
    ((save_reading cols now db m data).1 = none ↔ survivors cols m data = []) ∧
    (save_reading cols now db m data).2.readings.length =
      db.readings.length + (if (survivors cols m data).isEmpty then 0 else 1) ∧
    (save_reading readingColumns now db m []).1 = some db.nextId ∧
    (save_reading readingColumns now db m []).2.readings.length =
      db.readings.length + 1 ∧
    save_reading [] now db m data = (none, db) := by
  refine ⟨?_, ?_, rfl, ?_, ?_⟩
  · cases hs : survivors cols m data with
    | nil => simp [save_reading, hs]
    | cons a l => simp [save_reading, hs]
  · cases hs : survivors cols m data with
    | nil => simp [save_reading, hs]
    | cons a l => simp [save_reading, hs]
  · have h : (survivors readingColumns m []).isEmpty = false := rfl
    simp [save_reading, h]
  · have hsurv : survivors [] m data = [] := by
      simp [survivors]
    simp [save_reading, hsurv]

/-- C3 (counterexample): `save_reading` filters `None` and NaN but NOT
infinity — an infinite value in the parameter map is persisted, so "no
value stored in a Reading row is ever NaN or infinite" is false of the
code: the stored `Frequency` cell below is `inf`. -/
theorem save_reading_infinity_counterexample :
    ((save_reading readingColumns 0 ⟨[], [], 0⟩ "m1"
        [("Frequency", PyVal.vFloat PyFloat.inf)]).2.readings.map
      (fun r => r.cells.lookup "Frequency")) =
      [some (PyVal.vFloat PyFloat.inf)] := by
  rfl

/-- C3 (amended): every cell of a row inserted by `save_reading` is
non-null, non-NaN, and its column is among the live columns; infinite
values, however, are not filtered by `save_reading` (the counterexample
stores one), though `read_float32_register` never produces them. -/
theorem save_reading_cells_spec (cols : List String) (now : Int) (db : AppDB)
    (m : String) (data : List (String × PyVal)) :
    ∀ r ∈ (save_reading cols now db m data).2.readings,
      r ∈ db.readings ∨
        ∀ p ∈ r.cells, p.2 ≠ PyVal.vNone ∧ isNaNVal p.2 = false ∧ p.1 ∈ cols := by
  intro r hr
  cases hs : survivors cols m data with
  | nil =>
    simp [save_reading, hs] at hr
    exact Or.inl hr
  | cons a l =>
    simp [save_reading, hs] at hr
    rcases hr with hr | hr
    · exact Or.inl hr
    · right
      intro p hp
      rw [hr] at hp
      have hp2 : p ∈ List.filter (fun q => !(q.1 == "meter_id")) (a :: l) := hp
      have hp' : p ∈ survivors cols m data := by
        rw [hs]
        exact List.mem_of_mem_filter hp2
      exact mem_survivors cols m data p hp'

/-- C3 (witness for the amended theorem): the single cell of the row
saved from `{Frequency: 50.0}` is non-null, non-NaN, and a live
column. -/
theorem save_reading_cells_spec_witness :
    (⟨0, "m1", 0, [("Frequency", PyVal.vFloat (PyFloat.finite 50))]⟩ : ReadingRow)
        ∈ (⟨[], [], 0⟩ : AppDB).readings ∨
      ∀ p ∈ (⟨0, "m1", 0, [("Frequency", PyVal.vFloat (PyFloat.finite 50))]⟩ :
          ReadingRow).cells,
        p.2 ≠ PyVal.vNone ∧ isNaNVal p.2 = false ∧ p.1 ∈ readingColumns :=
  save_reading_cells_spec readingColumns 0 ⟨[], [], 0⟩ "m1"
    [("Frequency", PyVal.vFloat (PyFloat.finite 50))]
    ⟨0, "m1", 0, [("Frequency", PyVal.vFloat (PyFloat.finite 50))]⟩ (by decide)

/-- `save_reading` never writes a column that is neither a key of the
parameter map nor the injected `meter_id`. -/
theorem save_reading_no_unknown_column (cols : List String) (now : Int)
    (db : AppDB) (m : String) (data : List (String × PyVal)) (k : String)
    (hk : k ∉ data.map Prod.fst) :
    ∀ r ∈ (save_reading cols now db m data).2.readings,
      r ∈ db.readings ∨ r.cells.lookup k = none := by
  intro r hr
  cases hs : survivors cols m data with
  | nil =>
    simp [save_reading, hs] at hr
    exact Or.inl hr
  | cons a l =>
    simp [save_reading, hs] at hr
    rcases hr with hr | hr
    · exact Or.inl hr
    · right
      rw [hr]
      apply lookup_eq_none_of_not_mem_keys
      intro hmem
      obtain ⟨p, hp, hfst⟩ := List.mem_map.mp hmem
      have hp2 : p ∈ List.filter (fun q => !(q.1 == "meter_id")) (a :: l) := hp
      have hmid : (p.1 == "meter_id") = false := by
        have h2 := (List.mem_filter.mp hp2).2
        simpa using h2
      have hp1 : p ∈ survivors cols m data := by
        rw [hs]
        exact List.mem_of_mem_filter hp2
      rcases keys_survivors _ _ _ p hp1 with h | h
      · rw [h] at hmid
        simp at hmid
      · rw [hfst] at h
        exact hk h

/-- The effective register dict, written out: Python keeps the first
occurrence's position and the last occurrence's value, so the first
`Maximum_Current_2` carries 159 and the duplicate entry is gone. -/
def registersEffective : List (String × Nat) :=
  [("V1_N_Voltage", 1), ("V2_N_Voltage", 3), ("V3_N_Voltage", 5),
   ("V1_V2_Voltage", 7), ("V2_V3_Voltage", 9), ("V3_V1_Voltage", 11),
   ("Maximum_Voltage_V1_n", 75), ("Maximum_Voltage_V2_n", 77), ("Maximum_Voltage_V3_n", 79),
   ("Maximum_Voltage_V1_2", 81), ("Maximum_Voltage_V2_3", 83), ("Maximum_Voltage_V3_1", 85),
   ("Minimum_Voltage_V1_n", 145), ("Minimum_Voltage_V2_n", 147), ("Minimum_Voltage_V3_n", 149),
   ("Minimum_Voltage_V1_2", 151), ("Minimum_Voltage_V2_3", 153), ("Minimum_Voltage_V3_1", 155),
   ("THD_R_Voltage_1", 43), ("THD_R_Voltage_2", 45), ("THD_R_Voltage_3", 47),
   ("Average_Voltage_Vph_n", 57), ("Average_Voltage_Vph_ph", 59),
   ("Amplitude_Unbalance_Voltage", 71),
   ("L1_Current", 13), ("L2_Current", 15), ("L3_Current", 17),
   ("Maximum_Current_1", 87), ("Maximum_Current_2", 159), ("Maximum_Current_3", 91),
   ("Minimum_Current_1", 157), ("Minimum_Current_3", 161),
   ("Average_Current", 61),
   ("THD_R_Current_1", 49), ("THD_R_Current_2", 51), ("THD_R_Current_3", 53),
   ("Amplitude_Unbalance_Current", 73),
   ("L1_Active_Power", 25), ("L2_Active_Power", 27), ("L3_Active_Power", 29),
   ("Maximum_Active_Power_1", 99), ("Maximum_Active_Power_2", 101), ("Maximum_Active_Power_3", 103),
   ("Minimum_Active_Power_1", 169), ("Minimum_Active_Power_2", 171), ("Minimum_Active_Power_3", 173),
   ("Total_Active_Power", 65),
   ("L1_Reactive_Power", 31), ("L2_Reactive_Power", 33), ("L3_Reactive_Power", 35),
   ("Maximum_Reactive_Power_1", 105), ("Maximum_Reactive_Power_2", 107), ("Maximum_Reactive_Power_3", 109),
   ("Minimum_Reactive_Power_1", 175), ("Minimum_Reactive_Power_2", 177), ("Minimum_Reactive_Power_3", 179),
   ("Total_Reactive_Power", 67),
   ("L1_Apparent_Power", 19), ("L2_Apparent_Power", 21), ("L3_Apparent_Power", 23),
   ("Maximum_Apparent_Power_1", 93), ("Maximum_Apparent_Power_2", 95), ("Maximum_Apparent_Power_3", 97),
   ("Minimum_Apparent_Power_1", 163), ("Minimum_Apparent_Power_2", 165), ("Minimum_Apparent_Power_3", 167),
   ("Total_Apparent_Power", 63),
   ("L1_Power_Factor", 37), ("L2_Power_Factor", 39), ("L3_Power_Factor", 41),
   ("Maximum_Power_Factor_1", 111), ("Maximum_Power_Factor_2", 113), ("Maximum_Power_Factor_3", 115),
   ("Minimum_Power_Factor_1", 181), ("Minimum_Power_Factor_2", 183), ("Minimum_Power_Factor_3", 185),
   ("Total_Power_Factor", 69),
   ("Frequency", 55),
   ("Total_Active_Energy", 801),
   ("Total_Reactive_Energy", 805)]

set_option maxHeartbeats 1000000 in
theorem registers_eq : registers = registersEffective := by decide

/-- `read_all_parameters` preserves the register dict's keys. -/
theorem read_all_parameters_keys (read : Nat → Option PyFloat) :
    (read_all_parameters read).map Prod.fst = registers.map Prod.fst := by
  unfold read_all_parameters
  rw [List.map_map]
  exact List.map_congr_left (fun a _ => rfl)

/-- C10 (counterexample): the effective register dict has 80 entries,
not 79 as the claim states. -/
theorem registers_length_counterexample :
    (registers.length == 79) = false ∧ registers.length = 80 := by
  rw [registers_eq]
  constructor <;> rfl

/-- C10 (amended): the register map literal binds `Maximum_Current_2`
twice (to 89, then to 159) and never binds `Minimum_Current_2`; the
effective dict therefore has 80 parameters with `Maximum_Current_2`
mapped to 159; `read_all_parameters` never produces a
`Minimum_Current_2` entry, and a row inserted by `save_reading` from a
`read_all_parameters` result has NULL in the `Minimum_Current_2`
column. -/
theorem registers_effective_map_spec :
    (registersLiteral.filter (fun p => p.1 == "Maximum_Current_2")).map Prod.snd
        = [89, 159] ∧
    (registersLiteral.map Prod.fst).contains "Minimum_Current_2" = false ∧
    registers.length = 80 ∧
    registers.lookup "Maximum_Current_2" = some 159 ∧
    (∀ read : Nat → Option PyFloat,
      (read_all_parameters read).map Prod.fst = registers.map Prod.fst) ∧
    (∀ (read : Nat → Option PyFloat) (now : Int) (db : AppDB) (m : String),
      ∀ r ∈ (save_reading readingColumns now db m
                (read_all_parameters read)).2.readings,
        r ∈ db.readings ∨ r.cells.lookup "Minimum_Current_2" = none) := by
  refine ⟨by decide, by decide, by rw [registers_eq]; rfl,
    by rw [registers_eq]; rfl, read_all_parameters_keys, ?_⟩
  intro read now db m
  apply save_reading_no_unknown_column
  rw [read_all_parameters_keys, registers_eq]
  decide

/-- C10 (witness for the amended theorem): saving the all-decodes-fail
batch into an empty database yields a row whose `Minimum_Current_2`
lookup is NULL. -/
theorem registers_effective_map_spec_witness :
    (⟨0, "m1", 0, []⟩ : ReadingRow) ∈ (⟨[], [], 0⟩ : AppDB).readings ∨
      (⟨0, "m1", 0, []⟩ : ReadingRow).cells.lookup "Minimum_Current_2" = none :=
  registers_effective_map_spec.2.2.2.2.2 (fun _ => none) 0 ⟨[], [], 0⟩ "m1"
    ⟨0, "m1", 0, []⟩ (by decide)

/-- C5: for every read oracle — however many individual reads fail —
`read_all_parameters` returns exactly one entry per configured
parameter of the register dict: its key list equals the dict's key
list (which is duplicate-free), and the entry of a parameter whose
decode failed is present with an absent value rather than removed. -/
theorem read_all_parameters_spec (read : Nat → Option PyFloat) :
    (read_all_parameters read).map Prod.fst = registers.map Prod.fst ∧
    (registers.map Prod.fst).Nodup ∧
    ∀ (name : String) (a : Nat), (name, a) ∈ registers →
      (read_all_parameters read).lookup name =
        some (match read a with
              | some f => PyVal.vFloat f
              | none => PyVal.vNone) := by
  refine ⟨read_all_parameters_keys read, by rw [registers_eq]; decide, ?_⟩
  intro name a hm
  exact lookup_map_snd registers
    (fun b => match read b with
              | some f => PyVal.vFloat f
              | none => PyVal.vNone)
    (by rw [registers_eq]; decide) name a hm

/-- C5 (witness): with every decode failing, the `Frequency` entry is
still present, with the absent value. -/
theorem read_all_parameters_spec_witness :
    (read_all_parameters (fun _ => none)).lookup "Frequency" = some PyVal.vNone :=
  (read_all_parameters_spec (fun _ => none)).2.2 "Frequency" 55
    (by rw [registers_eq]; decide)

/-- C6: `read_float32_register` never returns NaN or an infinity, in
either mode: any returned value is finite; in simulated mode
(`modbus_available = false`) it returns the simulated value, which is
always finite; in live mode the result is absent when the socket is
not open, when the register read fails, or when the decoded binary32
value is non-finite. -/
theorem read_float32_register_spec (modbus_available : Bool)
    (mo va bt : ℚ) (socket_open read_ok : Bool) (decoded : PyFloat)
    (addr : Nat) :
    (∀ f, read_float32_register modbus_available mo va bt socket_open read_ok
        decoded addr = some f → f.isFinite = true) ∧
    read_float32_register false mo va bt socket_open read_ok decoded addr =
      some (generate_simulated_value mo va bt addr) ∧
    (generate_simulated_value mo va bt addr).isFinite = true ∧
    (socket_open = false →
      read_float32_register true mo va bt socket_open read_ok decoded addr = none) ∧
    (read_ok = false →
      read_float32_register true mo va bt socket_open read_ok decoded addr = none) ∧
    (decoded.isFinite = false →
      read_float32_register true mo va bt socket_open read_ok decoded addr = none) := by
  refine ⟨?_, rfl, generate_simulated_value_isFinite mo va bt addr, ?_, ?_, ?_⟩
  · intro f hf
    cases modbus_available with
    | false =>
      simp [read_float32_register] at hf
      rw [← hf]
      exact generate_simulated_value_isFinite mo va bt addr
    | true =>
      cases socket_open with
      | false => simp [read_float32_register] at hf
      | true =>
        cases read_ok with
        | false => simp [read_float32_register] at hf
        | true =>
          cases decoded <;> simp [read_float32_register] at hf
          rw [← hf]
          rfl
  · rintro rfl
    rfl
  · rintro rfl
    cases socket_open <;> rfl
  · intro hd
    cases socket_open <;> cases read_ok <;> cases decoded <;>
      first
        | rfl
        | (exact absurd hd (by simp [PyFloat.isFinite]))

/-- C6 (witness): a live-mode read that decodes to NaN yields absence. -/
theorem read_float32_register_spec_witness :
    read_float32_register true 0 0 0 true true PyFloat.nan 1 = none :=
  (read_float32_register_spec true 0 0 0 true true PyFloat.nan 1).2.2.2.2.2 rfl

/-- C7: `add_meter` followed by a fresh `load_meters_config` on the
same database reconstructs, for that meter id, a meter whose name,
host, port, unit id, location and description are exactly the values
passed to `add_meter` (timeout takes the constructor default 3, the
connection starts closed). -/
theorem add_meter_load_roundtrip (d : Dashboard) (m n hst : String)
    (p u : Int) (loc desc : String) :
    (load_meters_config (add_meter d m n hst p u loc desc).db).lookup m =
      some ⟨m, n, hst, p, u, 3, loc, desc, false⟩ := by
  unfold add_meter load_meters_config
  simp only
  rw [List.foldl_append, List.foldl_cons, List.foldl_nil]
  rw [lookup_dictInsert_self]
  rw [pyStrOr_empty, pyStrOr_empty]

/-- C8: `remove_meter` leaves the reading table (and the autoincrement
counter) entirely unchanged — every historical reading row of every
meter remains — deletes exactly the configuration rows of the given
meter id, and drops that id from the in-memory meters dict. -/
theorem remove_meter_spec (d : Dashboard) (m : String) :
    (remove_meter d m).db.readings = d.db.readings ∧
    (remove_meter d m).db.nextId = d.db.nextId ∧
    (remove_meter d m).db.configs =
      d.db.configs.filter (fun c => !(c.meter_id == m)) ∧
    (remove_meter d m).meters.all (fun q => !(q.1 == m)) = true := by
  refine ⟨rfl, rfl, rfl, ?_⟩
  rw [List.all_eq_true]
  intro q hq
  exact (List.mem_filter.mp hq).2

/-- C4: `init_database` is idempotent as a state transformer; it always
leaves the configuration table in existence (untouched when already
present, freshly created otherwise); it unconditionally drops and
recreates the reading table with the fixed column set — empty, so any
rows not covered by the legacy-backup path are discarded — and (re)
creates the composite (meter_id, timestamp DESC) index; the recreated
table does not carry the deprecated `device_id` column; and the legacy
path fires exactly on the presence of `device_id`: a legacy table with
rows is renamed to the backup name, a legacy table without rows is
dropped without touching the backup, and a non-legacy table never
touches the backup. -/
theorem init_database_spec (db : SchemaDB) :
    init_database (init_database db) = init_database db ∧
    (init_database db).pac3200_readings = some ⟨readingColumns, []⟩ ∧
    (init_database db).idx_readings_meter_timestamp = true ∧
    (init_database db).meters_config =
      some (db.meters_config.getD ⟨metersConfigColumns, []⟩) ∧
    readingColumns.contains "device_id" = false ∧
    (∀ t : GTable, db.pac3200_readings = some t → "device_id" ∈ t.cols →
      0 < t.rows.length →
      (init_database db).pac3200_readings_backup = some t) ∧
    (∀ t : GTable, db.pac3200_readings = some t → "device_id" ∈ t.cols →
      t.rows.length = 0 →
      (init_database db).pac3200_readings_backup = db.pac3200_readings_backup) ∧
    (∀ t : GTable, db.pac3200_readings = some t → "device_id" ∉ t.cols →
      (init_database db).pac3200_readings_backup = db.pac3200_readings_backup) ∧
    (db.pac3200_readings = none →
      (init_database db).pac3200_readings_backup = db.pac3200_readings_backup) := by
  have hdev : ("device_id" ∈ readingColumns) = False := by
    simp only [eq_iff_iff, iff_false]
    decide
  refine ⟨?_, ?_, ?_, ?_, by decide, ?_, ?_, ?_, ?_⟩
  · cases hro : db.pac3200_readings with
    | none => simp [init_database, hro, hdev]
    | some t =>
      by_cases hd : "device_id" ∈ t.cols
      · rcases ht : t.rows with _ | ⟨r0, rs⟩ <;>
          simp [init_database, hro, hd, ht, hdev]
      · simp [init_database, hro, hd, hdev]
  · cases hro : db.pac3200_readings with
    | none => simp [init_database, hro]
    | some t =>
      by_cases hd : "device_id" ∈ t.cols
      · rcases ht : t.rows with _ | ⟨r0, rs⟩ <;> simp [init_database, hro, hd, ht]
      · simp [init_database, hro, hd]
  · cases hro : db.pac3200_readings with
    | none => simp [init_database, hro]
    | some t =>
      by_cases hd : "device_id" ∈ t.cols
      · rcases ht : t.rows with _ | ⟨r0, rs⟩ <;> simp [init_database, hro, hd, ht]
      · simp [init_database, hro, hd]
  · cases hro : db.pac3200_readings with
    | none => simp [init_database, hro]
    | some t =>
      by_cases hd : "device_id" ∈ t.cols
      · rcases ht : t.rows with _ | ⟨r0, rs⟩ <;> simp [init_database, hro, hd, ht]
      · simp [init_database, hro, hd]
  · intro t hro hd hrows
    rcases ht : t.rows with _ | ⟨r0, rs⟩
    · rw [ht] at hrows
      simp at hrows
    · simp [init_database, hro, hd, ht]
  · intro t hro hd hrows
    rcases ht : t.rows with _ | ⟨r0, rs⟩
    · simp [init_database, hro, hd, ht]
    · rw [ht] at hrows
      simp at hrows
  · intro t hro hd
    simp [init_database, hro, hd]
  · intro hro
    simp [init_database, hro]

/-- C4 (witness): a legacy reading table (`device_id` column) holding
one row is renamed to the backup name. -/
theorem init_database_spec_witness :
    (init_database ⟨some ⟨["id", "device_id", "timestamp"], [[PyVal.vNone]]⟩,
        none, none, false⟩).pac3200_readings_backup =
      some ⟨["id", "device_id", "timestamp"], [[PyVal.vNone]]⟩ :=
  (init_database_spec ⟨some ⟨["id", "device_id", "timestamp"], [[PyVal.vNone]]⟩,
      none, none, false⟩).2.2.2.2.2.1
    ⟨["id", "device_id", "timestamp"], [[PyVal.vNone]]⟩ rfl (by decide) (by decide)

/-! ## Counting helpers for the join queries -/

theorem countP_flatMap (f : α → List β) (p : β → Bool) :
    ∀ l : List α, (l.flatMap f).countP p = (l.map (fun a => (f a).countP p)).sum := by
  intro l
  induction l with
  | nil => simp
  | cons a l ih => simp [List.countP_append, ih]

theorem sum_ite_eq_countP (p : α → Bool) :
    ∀ l : List α, (l.map (fun a => if p a then 1 else 0)).sum = l.countP p := by
  intro l
  induction l with
  | nil => simp
  | cons a l ih =>
    simp only [List.map_cons, List.sum_cons, List.countP_cons, ih]
    cases h : p a
    · simp
    · simp
      omega

theorem length_le_one_of_pairwise_ne (g : α → Int) :
    ∀ l : List α, l.Pairwise (fun a b => g a ≠ g b) →
      (∀ a ∈ l, ∀ b ∈ l, g a = g b) → l.length ≤ 1 := by
  intro l hp hconst
  match l with
  | [] => simp
  | [a] => simp
  | a :: b :: t =>
    exfalso
    have hne : g a ≠ g b := (List.pairwise_cons.mp hp).1 b (by simp)
    exact hne (hconst a (by simp) b (by simp))

/-- C2 (counterexample): with meter `m1` configured and holding two
readings that tie at the maximum timestamp 5, and meter `m2` present in
the reading table but not configured, `get_all_meters_latest` returns
TWO rows for `m1` (both rows tied at the maximum) and NO row for `m2`
(the INNER JOIN with `meters_config` drops it) — refuting "exactly one
row for every distinct meter identifier present in the reading table"
and "at most one row per meter identifier". -/
theorem get_all_meters_latest_counterexample :
    ((get_all_meters_latest
        ⟨[⟨0, "m1", 5, []⟩, ⟨1, "m1", 5, []⟩, ⟨2, "m2", 7, []⟩],
         [⟨"m1", "N", "h", 1, 1, "L", "D"⟩], 3⟩).countP
      (fun x => x.1.meter_id == "m1") = 2) ∧
    ((get_all_meters_latest
        ⟨[⟨0, "m1", 5, []⟩, ⟨1, "m1", 5, []⟩, ⟨2, "m2", 7, []⟩],
         [⟨"m1", "N", "h", 1, 1, "L", "D"⟩], 3⟩).countP
      (fun x => x.1.meter_id == "m2") = 0) ∧
    "m2" ∈ (⟨[⟨0, "m1", 5, []⟩, ⟨1, "m1", 5, []⟩, ⟨2, "m2", 7, []⟩],
         [⟨"m1", "N", "h", 1, 1, "L", "D"⟩], 3⟩ : AppDB).readings.map
        ReadingRow.meter_id := by
  refine ⟨by decide, by decide, by decide⟩

/-- C2 (amended): `get_all_meters_latest` returns exactly the reading
rows whose timestamp equals the maximum timestamp of their meter's
readings AND whose meter identifier has a configuration row (one output
row per such reading row and matching configuration row, carrying that
configuration's name and location); consequently a meter with at most
one configuration row whose reading timestamps are pairwise distinct
contributes at most one output row, while a meter with no configuration
row contributes none. -/
theorem get_all_meters_latest_amended (db : AppDB) (m : String)
    (hts : (db.readings.filter (fun r => r.meter_id == m)).Pairwise
      (fun a b => a.timestamp ≠ b.timestamp))
    (hcfg : db.configs.countP (fun c => c.meter_id == m) ≤ 1) :
    (∀ x : ReadingRow × String × String,
      x ∈ get_all_meters_latest db ↔
        (x.1 ∈ db.readings ∧ maxTS db x.1.meter_id = some x.1.timestamp ∧
          ∃ c ∈ db.configs, c.meter_id = x.1.meter_id ∧
            x.2.1 = c.name ∧ x.2.2 = c.location)) ∧
    (get_all_meters_latest db).countP (fun x => x.1.meter_id == m) ≤ 1 := by
  constructor
  · intro x
    constructor
    · intro hx
      obtain ⟨r, hr, hx2⟩ := List.mem_flatMap.mp hx
      obtain ⟨c, hc, hx3⟩ := List.mem_map.mp hx2
      obtain ⟨hrmem, hrmax⟩ := List.mem_filter.mp hr
      obtain ⟨hcmem, hcid⟩ := List.mem_filter.mp hc
      subst hx3
      refine ⟨hrmem, by simpa using hrmax, c, hcmem, by simpa using hcid,
        rfl, rfl⟩
    · rintro ⟨h1, h2, c, hc, hcid, hn, hl⟩
      apply List.mem_flatMap.mpr
      refine ⟨x.1, List.mem_filter.mpr ⟨h1, by simpa using h2⟩, ?_⟩
      apply List.mem_map.mpr
      refine ⟨c, List.mem_filter.mpr ⟨hc, by simpa using hcid⟩, ?_⟩
      rw [← hn, ← hl]
  · unfold get_all_meters_latest
    rw [countP_flatMap]
    have hbound : ∀ r ∈ db.readings.filter
        (fun r => maxTS db r.meter_id == some r.timestamp),
        ((db.configs.filter (fun c => c.meter_id == r.meter_id)).map
          (fun c => (r, c.name, c.location))).countP
            (fun x => x.1.meter_id == m) ≤
          (if r.meter_id == m then 1 else 0) := by
      intro r _
      rw [List.countP_map]
      cases hrm : r.meter_id == m with
      | false =>
        have : (db.configs.filter (fun c => c.meter_id == r.meter_id)).countP
            ((fun x : ReadingRow × String × String => x.1.meter_id == m) ∘
              (fun c => (r, c.name, c.location))) = 0 := by
          apply List.countP_eq_zero.mpr
          intro c _
          simpa using hrm
        simp [this]
      | true =>
        have hrm' : r.meter_id = m := by simpa using hrm
        calc (db.configs.filter (fun c => c.meter_id == r.meter_id)).countP
              ((fun x : ReadingRow × String × String => x.1.meter_id == m) ∘
                (fun c => (r, c.name, c.location)))
            ≤ (db.configs.filter (fun c => c.meter_id == r.meter_id)).length :=
              List.countP_le_length _
          _ = db.configs.countP (fun c => c.meter_id == r.meter_id) :=
              (List.countP_eq_length_filter _ _).symm
          _ = db.configs.countP (fun c => c.meter_id == m) := by rw [hrm']
          _ ≤ 1 := hcfg
        |>.trans_eq (by simp)
    calc ((db.readings.filter
            (fun r => maxTS db r.meter_id == some r.timestamp)).map
          (fun r => ((db.configs.filter (fun c => c.meter_id == r.meter_id)).map
            (fun c => (r, c.name, c.location))).countP
              (fun x => x.1.meter_id == m))).sum
        ≤ ((db.readings.filter
            (fun r => maxTS db r.meter_id == some r.timestamp)).map
          (fun r => if r.meter_id == m then 1 else 0)).sum :=
          List.sum_le_sum hbound
      _ = (db.readings.filter
            (fun r => maxTS db r.meter_id == some r.timestamp)).countP
          (fun r => r.meter_id == m) := sum_ite_eq_countP _ _
      _ ≤ 1 := by
          rw [List.countP_eq_length_filter, List.filter_filter]
          have hcomm : (db.readings.filter (fun r =>
              (r.meter_id == m) && (maxTS db r.meter_id == some r.timestamp))) =
            ((db.readings.filter (fun r => r.meter_id == m)).filter
              (fun r => maxTS db r.meter_id == some r.timestamp)) := by
            rw [List.filter_filter]
            exact List.filter_congr (fun r _ => Bool.and_comm _ _)
          rw [hcomm]
          apply length_le_one_of_pairwise_ne ReadingRow.timestamp
          · exact hts.sublist (List.filter_sublist _)
          · intro a ha b hb
            obtain ⟨ha1, ha2⟩ := List.mem_filter.mp ha
            obtain ⟨hb1, hb2⟩ := List.mem_filter.mp hb
            have ham : a.meter_id = m := by
              simpa using (List.mem_filter.mp ha1).2
            have hbm : b.meter_id = m := by
              simpa using (List.mem_filter.mp hb1).2
            have ha3 : maxTS db m = some a.timestamp := by
              rw [← ham]
              simpa using ha2
            have hb3 : maxTS db m = some b.timestamp := by
              rw [← hbm]
              simpa using hb2
            rw [ha3] at hb3
            exact Option.some.inj hb3

/-- C2 (witness for the amended theorem): a meter with one
configuration row and two readings at distinct timestamps yields at
most one latest row. -/
theorem get_all_meters_latest_amended_witness :
    (get_all_meters_latest
        ⟨[⟨0, "m1", 3, []⟩, ⟨1, "m1", 5, []⟩],
         [⟨"m1", "N", "h", 1, 1, "L", "D"⟩], 2⟩).countP
      (fun x => x.1.meter_id == "m1") ≤ 1 :=
  (get_all_meters_latest_amended
      ⟨[⟨0, "m1", 3, []⟩, ⟨1, "m1", 5, []⟩],
       [⟨"m1", "N", "h", 1, 1, "L", "D"⟩], 2⟩ "m1"
      (by decide) (by decide)).2

/-- C9: `get_aggregated_data hours` draws only on readings with
timestamp in `[now - hours, now]` (both ends inclusive); it groups by
the exact timestamp value — one output row per distinct in-range
timestamp, with every in-range reading's timestamp represented — and
for each group reports the SQL sum of `Total_Active_Power`, the SQL
mean of `Frequency` and of `Total_Power_Factor`, and a distinct-meter
count equal to the number of distinct meter identifiers among the
in-range rows carrying that exact timestamp. -/
theorem get_aggregated_data_spec (db : AppDB) (now hours : Int) :
    ((get_aggregated_data db now hours).map AggRow.timestamp).Nodup ∧
    (∀ a ∈ get_aggregated_data db now hours,
      now - hours ≤ a.timestamp ∧ a.timestamp ≤ now ∧
      (∃ r ∈ db.readings, r.timestamp = a.timestamp) ∧
      a.Active_Meters = ((db.readings.filter (fun r =>
          (r.timestamp == a.timestamp) &&
            decide (now - hours ≤ r.timestamp ∧ r.timestamp ≤ now))).map
          ReadingRow.meter_id).dedup.length ∧
      a.Total_System_Power = sqlSum ((db.readings.filter (fun r =>
          (r.timestamp == a.timestamp) &&
            decide (now - hours ≤ r.timestamp ∧ r.timestamp ≤ now))).map
          (fun r => r.getNum "Total_Active_Power")) ∧
      a.Avg_Frequency = sqlAvg ((db.readings.filter (fun r =>
          (r.timestamp == a.timestamp) &&
            decide (now - hours ≤ r.timestamp ∧ r.timestamp ≤ now))).map
          (fun r => r.getNum "Frequency")) ∧
      a.Avg_Power_Factor = sqlAvg ((db.readings.filter (fun r =>
          (r.timestamp == a.timestamp) &&
            decide (now - hours ≤ r.timestamp ∧ r.timestamp ≤ now))).map
          (fun r => r.getNum "Total_Power_Factor"))) ∧
    (∀ r ∈ db.readings, now - hours ≤ r.timestamp → r.timestamp ≤ now →
      ∃ a ∈ get_aggregated_data db now hours, a.timestamp = r.timestamp) := by
  have hmerge : ∀ t : Int,
      (db.readings.filter (fun r =>
          decide (now - hours ≤ r.timestamp ∧ r.timestamp ≤ now))).filter
        (fun r => r.timestamp == t) =
      db.readings.filter (fun r =>
        (r.timestamp == t) &&
          decide (now - hours ≤ r.timestamp ∧ r.timestamp ≤ now)) := by
    intro t
    rw [List.filter_filter]
  refine ⟨?_, ?_, ?_⟩
  · unfold get_aggregated_data
    rw [List.map_map]
    have : ((db.readings.filter (fun r =>
        decide (now - hours ≤ r.timestamp ∧ r.timestamp ≤ now))).map
          ReadingRow.timestamp).dedup.map
            (AggRow.timestamp ∘ (fun t =>
              ({ timestamp := t,
                 Total_System_Power := sqlSum
                   (((db.readings.filter (fun r =>
                       decide (now - hours ≤ r.timestamp ∧ r.timestamp ≤ now))).filter
                     (fun r => r.timestamp == t)).map
                     (fun r => r.getNum "Total_Active_Power")),
                 Avg_Frequency := sqlAvg
                   (((db.readings.filter (fun r =>
                       decide (now - hours ≤ r.timestamp ∧ r.timestamp ≤ now))).filter
                     (fun r => r.timestamp == t)).map
                     (fun r => r.getNum "Frequency")),
                 Avg_Power_Factor := sqlAvg
                   (((db.readings.filter (fun r =>
                       decide (now - hours ≤ r.timestamp ∧ r.timestamp ≤ now))).filter
                     (fun r => r.timestamp == t)).map
                     (fun r => r.getNum "Total_Power_Factor")),
                 Active_Meters := ((((db.readings.filter (fun r =>
                     decide (now - hours ≤ r.timestamp ∧ r.timestamp ≤ now))).filter
                   (fun r => r.timestamp == t)).map
                   ReadingRow.meter_id).dedup).length } : AggRow))) =
        ((db.readings.filter (fun r =>
          decide (now - hours ≤ r.timestamp ∧ r.timestamp ≤ now))).map
            ReadingRow.timestamp).dedup.map id :=
      List.map_congr_left (fun t _ => rfl)
    rw [this, List.map_id]
    exact List.nodup_dedup _
  · intro a ha
    unfold get_aggregated_data at ha
    obtain ⟨t, ht, rfl⟩ := List.mem_map.mp ha
    obtain ⟨r, hr, hrt⟩ := List.mem_map.mp (List.mem_dedup.mp ht)
    obtain ⟨hrmem, hrrange⟩ := List.mem_filter.mp hr
    rw [decide_eq_true_iff] at hrrange
    refine ⟨by rw [← hrt]; exact hrrange.1, by rw [← hrt]; exact hrrange.2,
      ⟨r, hrmem, hrt⟩, ?_, ?_, ?_, ?_⟩ <;>
      simp only [← hmerge t]
  · intro r hr h1 h2
    have hrin : r ∈ db.readings.filter (fun r =>
        decide (now - hours ≤ r.timestamp ∧ r.timestamp ≤ now)) :=
      List.mem_filter.mpr ⟨hr, decide_eq_true_iff.mpr ⟨h1, h2⟩⟩
    have htmem : r.timestamp ∈ ((db.readings.filter (fun r =>
        decide (now - hours ≤ r.timestamp ∧ r.timestamp ≤ now))).map
          ReadingRow.timestamp).dedup :=
      List.mem_dedup.mpr (List.mem_map.mpr ⟨r, hrin, rfl⟩)
    unfold get_aggregated_data
    exact ⟨_, List.mem_map.mpr ⟨r.timestamp, htmem, rfl⟩, rfl⟩

/-- C9 (witness): two meters reading `Total_Active_Power` 100 and 150
at the shared exact timestamp 5 (inside the window `[-10, 10]`) are
grouped into a row whose timestamp is 5. -/
theorem get_aggregated_data_spec_witness :
    ∃ a ∈ get_aggregated_data
        ⟨[⟨0, "m1", 5, [("Total_Active_Power", PyVal.vFloat (PyFloat.finite 100))]⟩,
          ⟨1, "m2", 5, [("Total_Active_Power", PyVal.vFloat (PyFloat.finite 150))]⟩],
         [], 2⟩ 10 20,
      a.timestamp =
        (⟨0, "m1", 5, [("Total_Active_Power", PyVal.vFloat (PyFloat.finite 100))]⟩ :
          ReadingRow).timestamp :=
  (get_aggregated_data_spec
      ⟨[⟨0, "m1", 5, [("Total_Active_Power", PyVal.vFloat (PyFloat.finite 100))]⟩,
        ⟨1, "m2", 5, [("Total_Active_Power", PyVal.vFloat (PyFloat.finite 150))]⟩],
       [], 2⟩ 10 20).2.2
    ⟨0, "m1", 5, [("Total_Active_Power", PyVal.vFloat (PyFloat.finite 100))]⟩
    (by decide) (by decide) (by decide)

end PAC3200Dash
